import Mathlib

/-!
# Verification of the document-processing pipeline

A shallow embedding of the pattern-based document pipeline
(`src/document_processor.py`): the rule-based classifier, the field
extractor, and the orchestrator `process_document_async`, together with
theorems settling the specification's claims about them.

Python's `re` module is modelled by a small backtracking engine over
`List Char` covering exactly the constructs the source's patterns use
(character classes with counted/greedy quantifiers, sequencing, ordered
alternation, one capture group), with Python's leftmost-first search
order, greedy backtracking and `IGNORECASE` semantics.  `Decimal` values
are modelled as exact rationals, `datetime.date` as a validated triple
(the constructor raises on out-of-range fields, modelled as `Option`),
and the database collaborator as an append-only trace of operations.
-/

namespace DocProc

/-! ## A Python-`re` style backtracking engine -/

/-- Regular-expression shapes used by the source: a character class with a
counted quantifier `{lo, hi}` (`hi = none` for an unbounded `+`/`*`),
sequencing, and ordered alternation.  Every quantifier in the source's
patterns applies to a single character class, so this grammar is exact. -/
inductive RE where
  | eps : RE
  | cls (p : Char → Bool) (lo : Nat) (hi : Option Nat) : RE
  | seq (a b : RE) : RE
  | alt (a b : RE) : RE

/-- Length of the longest prefix of `s` whose characters satisfy `p`. -/
def runLen (p : Char → Bool) : List Char → Nat
  | [] => 0
  | c :: cs => if p c then runLen p cs + 1 else 0

/-- CPS backtracking matcher: match `r` against a prefix of `s`, feeding each
candidate remainder to the continuation `k` in Python's preference order
(greedy quantifiers longest-first, alternation left-first). -/
def matchRE {α : Type} : RE → List Char → (List Char → Option α) → Option α
  | .eps, s, k => k s
  | .cls p lo hi, s, k =>
      let cap := match hi with
        | none => runLen p s
        | some h => min (runLen p s) h
      if cap < lo then none
      else (List.range (cap + 1 - lo)).findSome? fun i => k (s.drop (cap - i))
  | .seq a b, s, k => matchRE a s fun s1 => matchRE b s1 k
  | .alt a b, s, k =>
      match matchRE a s k with
      | some r => some r
      | none => matchRE b s k

/-- A search pattern with one capture group: `pre ( grp ) post`.  Every
extraction pattern in the source has exactly one group; classification
patterns use `grp`/`post` trivial. -/
structure Pat where
  pre : RE
  grp : RE
  post : RE

/-- Match `p` anchored at the start of `s`, returning the text consumed by the
capture group of the first (in backtracking order) full match. -/
def matchPatAt (p : Pat) (s : List Char) : Option (List Char) :=
  matchRE p.pre s fun s1 =>
    matchRE p.grp s1 fun s2 =>
      matchRE p.post s2 fun _ =>
        some (s1.take (s1.length - s2.length))

/-- `re.search`: try each start position left to right and return the first
match's group, like Python's leftmost-match rule. -/
def reSearch (p : Pat) (s : List Char) : Option (List Char) :=
  (List.range (s.length + 1)).findSome? fun i => matchPatAt p (s.drop i)

/-- Whole-pattern match at the head of `s`, returning the remainder. -/
def matchWhole (r : RE) (s : List Char) : Option (List Char) :=
  matchRE r s some

/-- Fuelled core of `re.findall` counting: scan left to right, counting
non-overlapping matches and resuming after each match's end. -/
def findallCountAux (r : RE) : Nat → List Char → Nat
  | 0, _ => 0
  | _ + 1, [] =>
      match matchWhole r [] with
      | some _ => 1
      | none => 0
  | fuel + 1, c :: cs =>
      match matchWhole r (c :: cs) with
      | none => findallCountAux r fuel cs
      | some rest =>
          1 + (if rest.length < cs.length + 1 then findallCountAux r fuel rest
               else findallCountAux r fuel cs)

/-- `len(re.findall(r, s))`: the number of non-overlapping matches of `r`. -/
def findallCount (r : RE) (s : List Char) : Nat :=
  findallCountAux r (s.length + 1) s

/-! ## Character classes and pattern constructors

The source compiles every pattern with `re.IGNORECASE` (or lower-cases the
text first), so literals and letter classes compare case-insensitively. -/

/-- Python `\s` (ASCII range): space, tab, newline, carriage return,
vertical tab, form feed. -/
def isSpaceCh (c : Char) : Bool :=
  c == ' ' || c == '\t' || c == '\n' || c == '\r' ||
    c == Char.ofNat 11 || c == Char.ofNat 12

/-- Python `\d` (ASCII). -/
def isDigitCh (c : Char) : Bool := c.isDigit

/-- Python `\w` (ASCII): letters, digits, underscore. -/
def isWordCh (c : Char) : Bool := c.isAlphanum || c == '_'

/-- `[A-Z]` under `IGNORECASE`: any ASCII letter. -/
def isLetterCh (c : Char) : Bool := c.isAlpha

/-- `[A-Z0-9\-]` under `IGNORECASE`. -/
def isIdCh (c : Char) : Bool := c.isAlpha || c.isDigit || c == '-'

/-- `[IVX]` under `IGNORECASE`. -/
def isIVXCh (c : Char) : Bool :=
  c.toLower == 'i' || c.toLower == 'v' || c.toLower == 'x'

/-- `[\s:]`. -/
def isSpaceColonCh (c : Char) : Bool := isSpaceCh c || c == ':'

/-- `[\d,]`. -/
def isDigitCommaCh (c : Char) : Bool := c.isDigit || c == ','

/-- `[\/\-]`. -/
def isSlashDashCh (c : Char) : Bool := c == '/' || c == '-'

/-- `[\s\-]`. -/
def isSpaceDashCh (c : Char) : Bool := isSpaceCh c || c == '-'

/-- `[1-4]`. -/
def isOneToFourCh (c : Char) : Bool := '1' ≤ c && c ≤ '4'

/-- One literal character, compared case-insensitively (`IGNORECASE`). -/
def chr (c : Char) : RE := .cls (fun d => d.toLower == c.toLower) 1 (some 1)

/-- A literal string, case-insensitively. -/
def lit (s : String) : RE := s.data.foldr (fun c r => .seq (chr c) r) .eps

/-- `p+`. -/
def plus (p : Char → Bool) : RE := .cls p 1 none

/-- `p*`. -/
def star (p : Char → Bool) : RE := .cls p 0 none

/-- `p?`. -/
def opt (p : Char → Bool) : RE := .cls p 0 (some 1)

/-- `p{lo,hi}`. -/
def rep (p : Char → Bool) (lo hi : Nat) : RE := .cls p lo (some hi)

/-- `p{n}`. -/
def exactly (p : Char → Bool) (n : Nat) : RE := .cls p n (some n)

/-- Sequence a list of regexes. -/
def seqL (l : List RE) : RE := l.foldr .seq .eps

/-- Ordered alternation of a list of regexes (first alternative preferred). -/
def altL : List RE → RE
  | [] => .eps
  | r :: rs => rs.foldl .alt r

/-- `str.lower()` on ASCII text. -/
def pyLower (s : String) : List Char := s.data.map Char.toLower

/-! ## Exact rational arithmetic

The Python floats this program computes with (multiples of `0.25`, capped
sums) and its `Decimal` values are all exact, so rationals model them
exactly.  The standard `ℚ` operations are declared `@[irreducible]`, which
blocks kernel evaluation of concrete instances; these wrappers compute the
same values through `mkRat` and are proved equal to the standard
operations. -/

/-- `a + b` on `ℚ`, computably. -/
def qadd (a b : ℚ) : ℚ := mkRat (a.num * b.den + b.num * a.den) (a.den * b.den)

/-- `a * b` on `ℚ`, computably. -/
def qmul (a b : ℚ) : ℚ := mkRat (a.num * b.num) (a.den * b.den)

/-- `a ≤ b` on `ℚ`, computably. -/
def qle (a b : ℚ) : Bool := a.num * b.den ≤ b.num * a.den

/-- `a < b` on `ℚ`, computably. -/
def qlt (a b : ℚ) : Bool := a.num * b.den < b.num * a.den

/-- `min a b` on `ℚ`, computably. -/
def qmin (a b : ℚ) : ℚ := if qle a b then a else b

theorem qadd_eq (a b : ℚ) : qadd a b = a + b := (Rat.add_def' a b).symm

theorem qmul_eq (a b : ℚ) : qmul a b = a * b := by
  rw [qmul, Rat.mul_def, Rat.normalize_eq_mkRat]

theorem qle_iff (a b : ℚ) : qle a b = true ↔ a ≤ b := by
  rw [Rat.le_def, qle, decide_eq_true_iff]

theorem qlt_iff (a b : ℚ) : qlt a b = true ↔ a < b := by
  rw [Rat.lt_def, qlt, decide_eq_true_iff]

theorem qmin_eq (a b : ℚ) : qmin a b = min a b := by
  rw [qmin, min_def]
  by_cases h : a ≤ b
  · rw [if_pos ((qle_iff a b).mpr h), if_pos h]
  · rw [if_neg, if_neg h]
    intro hc
    exact h ((qle_iff a b).mp hc)

/-! ## Data model (`src/models.py`) -/

/-- `DocumentType` enumeration. -/
inductive DocumentType where
  | capital_call
  | distribution
  | valuation
  | quarterly_update
  | unknown
deriving DecidableEq, Repr

/-- The `.value` string of each `DocumentType` member. -/
def DocumentType.value : DocumentType → String
  | .capital_call => "capital_call"
  | .distribution => "distribution"
  | .valuation => "valuation"
  | .quarterly_update => "quarterly_update"
  | .unknown => "unknown"

/-- `datetime.date`: a year/month/day triple (only constructed validated). -/
structure Date where
  year : Nat
  month : Nat
  day : Nat
deriving DecidableEq, Repr

/-- Gregorian leap-year rule, as `datetime` uses. -/
def isLeap (y : Nat) : Bool := y % 4 == 0 && (y % 100 != 0 || y % 400 == 0)

/-- Days in a month, as `datetime` uses. -/
def daysInMonth (y m : Nat) : Nat :=
  if m = 2 then (if isLeap y then 29 else 28)
  else if m = 4 ∨ m = 6 ∨ m = 9 ∨ m = 11 then 30
  else 31

/-- The `date(year, month, day)` constructor: `None` models the `ValueError`
raised on out-of-range fields (`datetime.MINYEAR = 1`, `MAXYEAR = 9999`). -/
def mkDate (y m d : Nat) : Option Date :=
  if 1 ≤ y ∧ y ≤ 9999 ∧ 1 ≤ m ∧ m ≤ 12 ∧ 1 ≤ d ∧ d ≤ daysInMonth y m then
    some ⟨y, m, d⟩
  else none

/-! ## `DocumentClassifier` (`document_processor.py`, lines 24–79) -/

/-- `classification_rules`: the ordered rule table, one ordered pattern list
per category, in the source's declaration order. -/
def classificationRules : List (DocumentType × List RE) :=
  [ (.capital_call,
      [ seqL [lit "capital", plus isSpaceCh, lit "call"],
        seqL [lit "drawdown", plus isSpaceCh, lit "notice"],
        seqL [lit "call", plus isSpaceCh, lit "notice"],
        seqL [lit "contribution", plus isSpaceCh, lit "request"] ]),
    (.distribution,
      [ seqL [lit "distribution", plus isSpaceCh, lit "notice"],
        seqL [lit "return", plus isSpaceCh, lit "of", plus isSpaceCh, lit "capital"],
        seqL [lit "dividend", plus isSpaceCh, lit "distribution"],
        seqL [lit "cash", plus isSpaceCh, lit "distribution"] ]),
    (.valuation,
      [ seqL [lit "valuation", plus isSpaceCh, lit "report"],
        seqL [lit "fair", plus isSpaceCh, lit "value"],
        seqL [lit "portfolio", plus isSpaceCh, lit "valuation"],
        seqL [lit "asset", plus isSpaceCh, lit "valuation"] ]),
    (.quarterly_update,
      [ seqL [lit "quarterly", plus isSpaceCh, lit "report"],
        seqL [lit "quarterly", plus isSpaceCh, lit "update"],
        seqL [lit "q", exactly isOneToFourCh 1, plus isSpaceCh, lit "report"],
        seqL [lit "quarterly", plus isSpaceCh, lit "statement"] ]) ]

/-- Per-category score, exactly as the source accumulates it: start at `0`,
add `matches * 0.25` per pattern, then cap the sum at `1.0`.  The Python
floats here are exact binary fractions, so rationals model them exactly. -/
def catScore (tl : List Char) (ps : List RE) : ℚ :=
  qmin (ps.foldl (fun s p => qadd s (qmul (findallCount p tl : ℚ) (mkRat 1 4))) 0) 1

/-- The body of `DocumentClassifier.classify` over its rule table (`self`'s
`classification_rules` attribute): score every category on the lower-cased
text, pick the first maximum in declaration order (Python's `max` over the
insertion-ordered dict keeps the earliest key on ties, since it replaces
only on a strictly greater value), and apply the `0.3` acceptance
threshold.  `0.3` as a Python float is not exactly `3/10`, but no multiple
of `1/4` separates the two, so the rational comparison is exact. -/
def classifyWith (rules : List (DocumentType × List RE)) (text : String) :
    DocumentType × ℚ :=
  match rules.map fun r => (r.1, catScore (pyLower text) r.2) with
  | [] => (.unknown, 0)
  | s :: rest =>
      let best := rest.foldl (fun b q => if qlt b.2 q.2 then q else b) s
      if qle (mkRat 3 10) best.2 then best else (.unknown, 0)

/-- `DocumentClassifier.classify`. -/
def classify (text : String) : DocumentType × ℚ :=
  classifyWith classificationRules text

/-! ## `FieldExtractor` shared extractors (`document_processor.py`, 81–169) -/

/-- Numeric value of a digit string (`int` on an all-digit string). -/
def digitsToNat (cs : List Char) : Nat :=
  cs.foldl (fun n c => 10 * n + (c.toNat - '0'.toNat)) 0

/-- `Decimal(s)` for the shapes the amount patterns capture (after comma
removal: digits with at most one dot).  `Decimal` rejects a string with no
digit (`""`, `"."`); otherwise the value is the exact decimal
`intpart.fracpart`, i.e. `(intpart·10^k + fracpart) / 10^k`. -/
def parseDecimal (cs : List Char) : Option ℚ :=
  if cs.any Char.isDigit then
    let ip := cs.takeWhile (fun c => c != '.')
    let fp := (cs.dropWhile (fun c => c != '.')).drop 1
    some (mkRat (digitsToNat ip * Nat.pow 10 fp.length + digitsToNat fp)
                (Nat.pow 10 fp.length))
  else none

/-- `self.patterns['amount']`, in order. -/
def amountPatterns : List Pat :=
  [ { pre := seqL [chr '$', opt isSpaceCh],
      grp := seqL [plus isDigitCommaCh, opt (fun c => c == '.'), star isDigitCh],
      post := .eps },
    { pre := seqL [lit "usd", plus isSpaceCh],
      grp := seqL [plus isDigitCommaCh, opt (fun c => c == '.'), star isDigitCh],
      post := .eps },
    { pre := seqL [lit "amount", plus isSpaceColonCh, opt (fun c => c == '$')],
      grp := seqL [plus isDigitCommaCh, opt (fun c => c == '.'), star isDigitCh],
      post := .eps } ]

/-- `FieldExtractor.extract_amount` loop: first pattern whose match parses as
a `Decimal` wins; a failed parse falls through to the next pattern. -/
def goAmount : List Pat → List Char → Option ℚ
  | [], _ => none
  | p :: ps, s =>
      match reSearch p s with
      | none => goAmount ps s
      | some cap =>
          match parseDecimal (cap.filter (fun c => c != ',')) with
          | some v => some v
          | none => goAmount ps s

/-- `FieldExtractor.extract_amount`. -/
def extract_amount (text : String) : Option ℚ := goAmount amountPatterns text.data

/-- `r'(\d{1,2}[\/\-]\d{1,2}[\/\-]\d{2,4})'`: the numeric slash/dash shape. -/
def datePatternNumeric : Pat :=
  { pre := .eps,
    grp := seqL [rep isDigitCh 1 2, exactly isSlashDashCh 1, rep isDigitCh 1 2,
                 exactly isSlashDashCh 1, rep isDigitCh 2 4],
    post := .eps }

/-- `r'(\w+\s+\d{1,2},?\s+\d{4})'`: the month-name shape. -/
def datePatternMonthName : Pat :=
  { pre := .eps,
    grp := seqL [plus isWordCh, plus isSpaceCh, rep isDigitCh 1 2,
                 opt (fun c => c == ','), plus isSpaceCh, exactly isDigitCh 4],
    post := .eps }

/-- `r'(\d{4}[\/\-]\d{1,2}[\/\-]\d{1,2})'`: the ISO-like year-first shape. -/
def datePatternYearFirst : Pat :=
  { pre := .eps,
    grp := seqL [exactly isDigitCh 4, exactly isSlashDashCh 1, rep isDigitCh 1 2,
                 exactly isSlashDashCh 1, rep isDigitCh 1 2],
    post := .eps }

/-- `self.patterns['date']`, in order. -/
def datePatterns : List Pat :=
  [datePatternNumeric, datePatternMonthName, datePatternYearFirst]

/-- `re.split(r'[\/\-]', _)`: split on every single slash or dash. -/
def splitSlashDash : List Char → List (List Char)
  | [] => [[]]
  | c :: cs =>
      if isSlashDashCh c then [] :: splitSlashDash cs
      else
        match splitSlashDash cs with
        | [] => [[c]]
        | g :: gs => (c :: g) :: gs

/-- The date-string conversion inside `extract_date`: only strings holding a
slash or dash and splitting into three parts are converted; a two-character
year gets `'20'` prepended; the `date` constructor validates (a `ValueError`
is caught and yields `none`, falling through to the next pattern). -/
def tryParseDate (cap : List Char) : Option Date :=
  if cap.contains '/' || cap.contains '-' then
    match splitSlashDash cap with
    | [p0, p1, p2] =>
        let ys := if p2.length == 2 then '2' :: '0' :: p2 else p2
        mkDate (digitsToNat ys) (digitsToNat p0) (digitsToNat p1)
    | _ => none
  else none

/-- `FieldExtractor.extract_date` loop: for each pattern, take its first
match; a match that does not convert (no slash/dash, wrong part count, or an
out-of-range `date`) falls through to the next pattern. -/
def goDate : List Pat → List Char → Option Date
  | [], _ => none
  | p :: ps, s =>
      match reSearch p s with
      | none => goDate ps s
      | some cap =>
          match tryParseDate cap with
          | some d => some d
          | none => goDate ps s

/-- `FieldExtractor.extract_date`. -/
def extract_date (text : String) : Option Date := goDate datePatterns text.data

/-- `strip()`: trim surrounding whitespace. -/
def pyStrip (cs : List Char) : List Char :=
  ((cs.dropWhile isSpaceCh).reverse.dropWhile isSpaceCh).reverse

/-- `self.patterns['fund_id']`, in order. -/
def fundIdPatterns : List Pat :=
  [ { pre := seqL [lit "fund", plus isSpaceCh,
                   altL [lit "id", lit "identifier", lit "number"],
                   plus isSpaceColonCh],
      grp := plus isIdCh,
      post := .eps },
    { pre := seqL [lit "fund", plus isSpaceColonCh],
      grp := seqL [rep isLetterCh 2 6, opt isSpaceCh, plus isDigitCh],
      post := .eps },
    { pre := .eps,
      grp := seqL [rep isLetterCh 3 6, opt isSpaceDashCh, plus isIVXCh],
      post := .eps } ]

/-- First-match-wins loop shared by the identifier extractors, with the
source's `.strip()` applied to the captured group. -/
def goStr : List Pat → List Char → Option String
  | [], _ => none
  | p :: ps, s =>
      match reSearch p s with
      | none => goStr ps s
      | some cap => some ⟨pyStrip cap⟩

/-- `FieldExtractor.extract_fund_id`. -/
def extract_fund_id (text : String) : Option String :=
  goStr fundIdPatterns text.data

/-- `self.patterns['lp_id']`, in order. -/
def lpIdPatterns : List Pat :=
  [ { pre := seqL [lit "lp", plus isSpaceColonCh], grp := plus isIdCh, post := .eps },
    { pre := seqL [lit "limited", plus isSpaceCh, lit "partner", plus isSpaceColonCh],
      grp := plus isIdCh, post := .eps },
    { pre := seqL [lit "investor", plus isSpaceColonCh], grp := plus isIdCh, post := .eps } ]

/-- `FieldExtractor.extract_lp_id`. -/
def extract_lp_id (text : String) : Option String :=
  goStr lpIdPatterns text.data

/-- `self.patterns['call_number']`, in order. -/
def callNumberPatterns : List Pat :=
  [ { pre := seqL [lit "call", plus isSpaceCh,
                   altL [seqL [lit "no", opt (fun c => c == '.')], lit "number"],
                   plus isSpaceColonCh],
      grp := plus isDigitCh, post := .eps },
    { pre := seqL [lit "drawdown", plus isSpaceCh,
                   altL [seqL [lit "no", opt (fun c => c == '.')], lit "number"],
                   plus isSpaceColonCh],
      grp := plus isDigitCh, post := .eps },
    { pre := seqL [altL [lit "call", lit "drawdown"], plus isSpaceCh],
      grp := plus isDigitCh, post := .eps } ]

/-- First-match-wins loop for `extract_call_number`; `int` on the all-digit
group never fails. -/
def goNat : List Pat → List Char → Option Nat
  | [], _ => none
  | p :: ps, s =>
      match reSearch p s with
      | none => goNat ps s
      | some cap => some (digitsToNat cap)

/-- `FieldExtractor.extract_call_number`. -/
def extract_call_number (text : String) : Option Nat :=
  goNat callNumberPatterns text.data

/-! ## Per-category field assembly (`document_processor.py`, 171–216)

The source substitutes defaults with Python's `or`, which also replaces a
*falsy* extracted value: the empty string, `Decimal('0')` and `0` all fall
back to the default, while a `date` object never does. -/

/-- `x or default` for an optional string (empty string is falsy). -/
def pyOrS (o : Option String) (d : String) : String :=
  match o with
  | none => d
  | some s => if s = "" then d else s

/-- `x or default` for an optional `Decimal` (zero is falsy). -/
def pyOrQ (o : Option ℚ) (d : ℚ) : ℚ :=
  match o with
  | none => d
  | some v => if v = 0 then d else v

/-- `x or default` for an optional `int` (zero is falsy). -/
def pyOrN (o : Option Nat) (d : Nat) : Nat :=
  match o with
  | none => d
  | some v => if v = 0 then d else v

/-- `x or default` for an optional `date` (a `date` is always truthy). -/
def pyOrD (o : Option Date) (d : Date) : Date := o.getD d

/-- The dict returned by `extract_capital_call_fields` (7 entries). -/
structure CapitalCallFields where
  fund_id : String
  call_date : Date
  lp_id : String
  call_amount : ℚ
  currency : String
  call_number : Nat
  confidence : ℚ
deriving DecidableEq, Repr

/-- The dict returned by `extract_distribution_fields` (7 entries). -/
structure DistributionFields where
  fund_id : String
  distribution_date : Date
  lp_id : String
  distribution_amount : ℚ
  distribution_type : String
  currency : String
  confidence : ℚ
deriving DecidableEq, Repr

/-- The dict returned by `extract_valuation_fields` (7 entries);
`discount_rate` is the one value the source can leave as `None`. -/
structure ValuationFields where
  valuation_date : Date
  methodology : String
  discount_rate : Option ℚ
  multiples : List (String × String)
  final_valuation : ℚ
  currency : String
  confidence : ℚ
deriving DecidableEq, Repr

/-- `FieldExtractor.extract_capital_call_fields`; `today` stands for
`date.today()`. -/
def extract_capital_call_fields (text : String) (today : Date) : CapitalCallFields :=
  { fund_id := pyOrS (extract_fund_id text) "FUND-001",
    call_date := pyOrD (extract_date text) today,
    lp_id := pyOrS (extract_lp_id text) "LP-001",
    call_amount := pyOrQ (extract_amount text) 100000,
    currency := "USD",
    call_number := pyOrN (extract_call_number text) 1,
    confidence := mkRat 8 10 }

/-- `r'capital\s+income|dividend'` (alternation spans the whole pattern). -/
def ciPattern : Pat :=
  { pre := altL [seqL [lit "capital", plus isSpaceCh, lit "income"], lit "dividend"],
    grp := .eps, post := .eps }

/-- `FieldExtractor.extract_distribution_fields`: `distribution_type` is
`'CI'` exactly when the capital-income/dividend pattern matches. -/
def extract_distribution_fields (text : String) (today : Date) : DistributionFields :=
  { fund_id := pyOrS (extract_fund_id text) "FUND-001",
    distribution_date := pyOrD (extract_date text) today,
    lp_id := pyOrS (extract_lp_id text) "LP-001",
    distribution_amount := pyOrQ (extract_amount text) 50000,
    distribution_type := if (reSearch ciPattern text.data).isSome then "CI" else "ROC",
    currency := "USD",
    confidence := mkRat 8 10 }

/-- `r'discount\s+rate[\s:]+(\d+\.?\d*)%?'`. -/
def discountRatePattern : Pat :=
  { pre := seqL [lit "discount", plus isSpaceCh, lit "rate", plus isSpaceColonCh],
    grp := seqL [plus isDigitCh, opt (fun c => c == '.'), star isDigitCh],
    post := opt (fun c => c == '%') }

/-- `v / 100` on `ℚ`, computably (the denominator stays positive). -/
def qdivHundred (v : ℚ) : ℚ := mkRat v.num (v.den * 100)

theorem qdivHundred_eq (v : ℚ) : qdivHundred v = v / 100 := by
  rw [qdivHundred, Rat.mkRat_eq_div]
  push_cast
  rw [← div_div, Rat.num_div_den]

/-- The `discount_rate` computation: `Decimal(group(1)) / 100` on a match,
else `None` (no default is ever substituted). -/
def extract_discount_rate (text : String) : Option ℚ :=
  match reSearch discountRatePattern text.data with
  | none => none
  | some cap =>
      match parseDecimal cap with
      | some v => some (qdivHundred v)
      | none => none

/-- `FieldExtractor.extract_valuation_fields`. -/
def extract_valuation_fields (text : String) (today : Date) : ValuationFields :=
  { valuation_date := pyOrD (extract_date text) today,
    methodology := "DCF Analysis",
    discount_rate := extract_discount_rate text,
    multiples := [("ev_ebitda", "12.5x"), ("p_e", "15.0x")],
    final_valuation := pyOrQ (extract_amount text) 1000000,
    currency := "USD",
    confidence := mkRat 7 10 }

/-! ## Orchestrator (`DocumentProcessor.process_document_async`, 247–321)

One run over one document is modelled as the list of database calls it
makes, in order: an append-only trace.  `text` is the intake collaborator's
result (the stripped PDF text), `today` stands for `date.today()` inside the
extractors and `ms` for the measured elapsed milliseconds.  The only
exception a run of the model can raise is the source's own
`Exception("No text could be extracted from PDF")` on falsy (empty) text;
the `except` block at the top level of the run maps it to the `failed`
status write and the `error` log entry, and nothing is re-raised. -/

/-- One database call: a status update (optionally carrying the
classification write of `update_document_status(.., doc_type, confidence)`),
a `processing_logs` insert, or a typed-record insert. -/
inductive DbOp where
  | setStatus (status : String) (cls : Option (DocumentType × ℚ))
  | logStep (stage status msg : String) (durationMs : Option Nat)
  | createCapitalCall (f : CapitalCallFields)
  | createDistribution (f : DistributionFields)
  | createValuation (f : ValuationFields)
deriving DecidableEq, Repr

/-- `str(confidence)` for the scores `classify` can return (multiples of
`0.25` in `[0, 1]`, exact binary floats, which Python prints as below). -/
def fmtScore (q : ℚ) : String :=
  if q = 0 then "0.0"
  else if q = mkRat 1 4 then "0.25"
  else if q = mkRat 1 2 then "0.5"
  else if q = mkRat 3 4 then "0.75"
  else if q = 1 then "1.0"
  else "0.0"

/-- The typed-record insert for the classified category: the source calls
`create_capital_call` / `create_distribution` / `create_valuation` for the
three extractable categories and nothing for `quarterly_update`/`unknown`
(`extracted_data` stays `None`). -/
def recordOps (dt : DocumentType) (text : String) (today : Date) : List DbOp :=
  match dt with
  | .capital_call => [.createCapitalCall (extract_capital_call_fields text today)]
  | .distribution => [.createDistribution (extract_distribution_fields text today)]
  | .valuation => [.createValuation (extract_valuation_fields text today)]
  | _ => []

/-- `DocumentProcessor.process_document_async` as its database-call trace. -/
def processDocument (text : String) (today : Date) (ms : Nat) : List DbOp :=
  let startOps : List DbOp :=
    [.logStep "start" "processing" "Starting document processing" none,
     .setStatus "processing" none]
  if text = "" then
    startOps ++
      [.setStatus "failed" none,
       .logStep "error" "failed"
         "Error during processing: No text could be extracted from PDF" none]
  else
    let dc := classify text
    let recs := recordOps dc.1 text today
    startOps ++
      [.logStep "text_extraction" "completed"
         ("Extracted " ++ toString text.length ++ " characters") none,
       .logStep "classification" "completed"
         ("Classified as " ++ dc.1.value ++ " with confidence " ++ fmtScore dc.2) none,
       .setStatus "processing" (some dc)] ++
      recs ++
      (if recs.isEmpty then []
       else [.logStep "field_extraction" "completed" "Extracted 7 fields" none]) ++
      [.setStatus "completed" none,
       .logStep "complete" "completed"
         "Document processing completed successfully" (some ms)]

/-! ## Trace observations -/

/-- The statuses written to the document, in order. -/
def statusWrites (tr : List DbOp) : List String :=
  tr.filterMap fun op =>
    match op with
    | .setStatus s _ => some s
    | _ => none

/-- The document's final status after the run (last status write). -/
def finalStatus (tr : List DbOp) : Option String := (statusWrites tr).getLast?

/-- The classification writes (status updates carrying category+confidence). -/
def clsWrites (tr : List DbOp) : List (DocumentType × ℚ) :=
  tr.filterMap fun op =>
    match op with
    | .setStatus _ (some c) => some c
    | _ => none

/-- The `(stage, status)` pairs of the log entries, in order. -/
def logEntries (tr : List DbOp) : List (String × String) :=
  tr.filterMap fun op =>
    match op with
    | .logStep stage status _ _ => some (stage, status)
    | _ => none

/-- The capital-call records inserted during the run. -/
def capitalCallRecords (tr : List DbOp) : List CapitalCallFields :=
  tr.filterMap fun op =>
    match op with
    | .createCapitalCall f => some f
    | _ => none

/-- Rank of a status along `pending → processing → {completed, failed}`. -/
def statusRank : String → Nat
  | "pending" => 0
  | "processing" => 1
  | "completed" => 2
  | "failed" => 2
  | _ => 0

/-- A status is terminal when it is `completed` or `failed`. -/
def isTerminal (s : String) : Bool := s == "completed" || s == "failed"

/-- Ranks never decrease along the list, starting from rank `r`. -/
def monoFrom : Nat → List String → Bool
  | _, [] => true
  | r, s :: rest => r ≤ statusRank s && monoFrom (statusRank s) rest

/-- The written statuses never decrease in rank, starting from `pending`. -/
def statusesMonotone (ss : List String) : Bool :=
  monoFrom (statusRank "pending") ss

/-- No status is written after a terminal status. -/
def noWriteAfterTerminal : List String → Bool
  | [] => true
  | s :: rest => (!(isTerminal s) || rest.isEmpty) && noWriteAfterTerminal rest

/-- The status writes paired with their classification payloads, in order. -/
def statusOps (tr : List DbOp) : List (String × Option (DocumentType × ℚ)) :=
  tr.filterMap fun op =>
    match op with
    | .setStatus s c => some (s, c)
    | _ => none

/-! ## The specification's description of the classifier

These definitions follow the words of the spec (§4.1), to be compared with
the transliterated `classify`: per-category score as the *sum* over the
category's patterns of match count × 0.25, capped at 1.0; selection as a
linear scan in declaration order keeping the running maximum and replacing
it only on a strictly greater score (ties keep the earliest-declared
category); result `(category, score)` when the selected score is ≥ 0.3 and
`(unknown, 0.0)` otherwise. -/

/-- Spec §4.1: for each category, score = sum over its patterns of
(match count × 0.25), capped at 1.0. -/
def specCatScore (tl : List Char) (ps : List RE) : ℚ :=
  min ((ps.map fun p => (findallCount p tl : ℚ)).sum * (1 / 4)) 1

/-- Spec §4.1: linear scan in declaration order, replacing the selection
only on a strictly greater score. -/
def selectBest : DocumentType × ℚ → List (DocumentType × ℚ) → DocumentType × ℚ
  | b, [] => b
  | b, c :: rest => selectBest (if b.2 < c.2 then c else b) rest

/-- Spec §4.1: the classifier as the spec describes it. -/
def classifySpec (text : String) : DocumentType × ℚ :=
  let tl := pyLower text
  let scores := classificationRules.map fun r => (r.1, specCatScore tl r.2)
  match scores with
  | [] => (.unknown, 0)
  | s :: rest =>
      let best := selectBest s rest
      if (3 : ℚ) / 10 ≤ best.2 then best else (.unknown, 0)

/-! ## Classifier lemmas -/

lemma mkRat_quarter : (mkRat 1 4 : ℚ) = 1 / 4 := by norm_num [Rat.mkRat_eq_div]

lemma mkRat_threshold : (mkRat 3 10 : ℚ) = 3 / 10 := by norm_num [Rat.mkRat_eq_div]

lemma qle_threshold_iff (x : ℚ) :
    qle (mkRat 3 10) x = true ↔ (3 : ℚ) / 10 ≤ x := by
  rw [qle_iff, mkRat_threshold]

/-- The transliterated running-maximum step equals the comparison the spec
words it with. -/
lemma pick_eq :
    (fun (b q : DocumentType × ℚ) => if qlt b.2 q.2 then q else b)
      = fun (b q : DocumentType × ℚ) => if b.2 < q.2 then q else b := by
  funext b q
  by_cases h : b.2 < q.2
  · rw [if_pos ((qlt_iff _ _).mpr h), if_pos h]
  · rw [if_neg, if_neg h]
    intro hc
    exact h ((qlt_iff _ _).mp hc)

lemma foldl_score (tl : List Char) (ps : List RE) (a : ℚ) :
    ps.foldl (fun s p => qadd s (qmul (findallCount p tl : ℚ) (mkRat 1 4))) a
      = a + (ps.map fun p => (findallCount p tl : ℚ)).sum * (1 / 4) := by
  induction ps generalizing a with
  | nil => simp
  | cons p ps ih =>
      rw [List.foldl_cons, ih, List.map_cons, List.sum_cons, qadd_eq, qmul_eq,
        mkRat_quarter]
      ring

lemma catScore_eq_specCatScore (tl : List Char) (ps : List RE) :
    catScore tl ps = specCatScore tl ps := by
  unfold catScore specCatScore
  rw [qmin_eq, foldl_score, zero_add]

lemma selectBest_eq_foldl (l : List (DocumentType × ℚ)) (b : DocumentType × ℚ) :
    selectBest b l = l.foldl (fun b q => if b.2 < q.2 then q else b) b := by
  induction l generalizing b with
  | nil => rfl
  | cons c t ih => rw [selectBest, List.foldl_cons, ih]

lemma foldl_pick_mem (l : List (DocumentType × ℚ)) (b : DocumentType × ℚ) :
    l.foldl (fun b q => if b.2 < q.2 then q else b) b = b ∨
      l.foldl (fun b q => if b.2 < q.2 then q else b) b ∈ l := by
  induction l generalizing b with
  | nil => left; rfl
  | cons c t ih =>
      rw [List.foldl_cons]
      rcases ih (if b.2 < c.2 then c else b) with h | h
      · rw [h]
        by_cases hbc : b.2 < c.2
        · right; rw [if_pos hbc]; exact List.mem_cons_self _ _
        · left; rw [if_neg hbc]
      · right; exact List.mem_cons_of_mem _ h

lemma catScore_quantized (tl : List Char) (ps : List RE) :
    ∃ k : ℕ, catScore tl ps = min ((k : ℚ) * (1 / 4)) 1 := by
  refine ⟨(ps.map fun p => findallCount p tl).sum, ?_⟩
  rw [catScore_eq_specCatScore]
  unfold specCatScore
  congr 2
  rw [Nat.cast_list_sum, List.map_map]
  rfl

/-- Every result of the classifier is either the below-threshold fallback
`(unknown, 0.0)` or carries a score that is at least the threshold and is a
multiple of `0.25` capped at `1.0` (some pattern-count sum `k`). -/
lemma classifyWith_cases (rules : List (DocumentType × List RE)) (text : String) :
    classifyWith rules text = (.unknown, 0) ∨
      ((3 : ℚ) / 10 ≤ (classifyWith rules text).2 ∧
        ∃ k : ℕ, (classifyWith rules text).2 = min ((k : ℚ) * (1 / 4)) 1) := by
  unfold classifyWith
  simp only [pick_eq]
  cases hm : rules.map (fun r => (r.1, catScore (pyLower text) r.2)) with
  | nil => left; rfl
  | cons s rest =>
      simp only
      by_cases hthr :
          (3 : ℚ) / 10 ≤ (rest.foldl (fun b q => if b.2 < q.2 then q else b) s).2
      · right
        rw [if_pos ((qle_threshold_iff _).mpr hthr)]
        refine ⟨hthr, ?_⟩
        have hmem : rest.foldl (fun b q => if b.2 < q.2 then q else b) s ∈ s :: rest := by
          rcases foldl_pick_mem rest s with h | h
          · rw [h]; exact List.mem_cons_self _ _
          · exact List.mem_cons_of_mem _ h
        rw [← hm, List.mem_map] at hmem
        obtain ⟨r, _, hr⟩ := hmem
        rw [← hr]
        exact catScore_quantized _ _
      · left
        rw [if_neg]
        intro hc
        exact hthr ((qle_threshold_iff _).mp hc)

lemma half_le_of_threshold (k : ℕ)
    (h : (3 : ℚ) / 10 ≤ min ((k : ℚ) * (1 / 4)) 1) :
    (1 : ℚ) / 2 ≤ min ((k : ℚ) * (1 / 4)) 1 := by
  rcases Nat.lt_or_ge k 2 with hk | hk
  · interval_cases k <;> norm_num [min_def] at h
  · have hk2 : (2 : ℚ) ≤ (k : ℚ) := by exact_mod_cast hk
    exact le_min (by linarith) (by norm_num)

/-! ## Claims about the classifier -/

/-- C1.  For every input text, `classify` computes per category a score
equal to the sum over that category's patterns of (match count × 0.25)
capped at 1.0, selects the maximum-scoring category with ties resolved to
the earliest-declared category (declaration order `capital_call`,
`distribution`, `valuation`, `quarterly_update`), and returns
(that category, its score) when the score is ≥ 0.3, otherwise
(`unknown`, 0.0): the transliterated `classify` coincides with
`classifySpec`, the direct formalisation of that description. -/
theorem claim_C1 (text : String) : classify text = classifySpec text := by
  unfold classify classifyWith classifySpec
  simp only [catScore_eq_specCatScore, selectBest_eq_foldl, pick_eq]
  cases classificationRules.map (fun r => (r.1, specCatScore (pyLower text) r.2)) with
  | nil => rfl
  | cons s rest =>
      simp only
      by_cases h :
          (3 : ℚ) / 10 ≤ (rest.foldl (fun b q => if b.2 < q.2 then q else b) s).2
      · rw [if_pos ((qle_threshold_iff _).mpr h), if_pos h]
      · rw [if_neg, if_neg h]
        intro hc
        exact h ((qle_threshold_iff _).mp hc)

/-- C10.  Whenever `classify` returns a category other than `unknown`, the
returned confidence is at least `0.5`: every achievable score is a multiple
of `0.25` capped at `1.0`, so no score lies in `[0.3, 0.5)` and the declared
`0.3` acceptance threshold is effectively `0.5`. -/
theorem claim_C10 (text : String)
    (h : (classify text).1 ≠ DocumentType.unknown) :
    (1 : ℚ) / 2 ≤ (classify text).2 := by
  have hce : classify text = classifyWith classificationRules text := rfl
  rcases classifyWith_cases classificationRules text with hc | ⟨hthr, k, hk⟩
  · exact absurd (by rw [hce, hc]) h
  · rw [hk] at hthr
    rw [hce, hk]
    exact half_le_of_threshold k hthr

/-- Witness for C10 at a concrete input: two occurrences of the
`capital call` pattern give score `0.5 ≥ 0.5`. -/
theorem claim_C10_witness :
    (1 : ℚ) / 2 ≤ (classify "capital call capital call").2 :=
  claim_C10 "capital call capital call" (by decide)

/-! ## Claims about the field extractors -/

/-- C9.  `extract_amount` parses currency-prefixed or labeled numeric
amounts as exact decimal values, stripping thousands separators:
`extract_amount("The amount requested is $1,500,000.50")` is exactly the
decimal `1500000.50` (the rational `3000001/2 = 1500000 + 1/2`, with no
binary-float rounding), and any text on which no amount pattern matches
yields `None`. -/
theorem claim_C9 :
    extract_amount "The amount requested is $1,500,000.50" = some (mkRat 3000001 2) ∧
    (mkRat 3000001 2 : ℚ) = 1500000 + 1 / 2 ∧
    (∀ text : String, (∀ p ∈ amountPatterns, reSearch p text.data = none) →
      extract_amount text = none) := by
  refine ⟨by decide, by norm_num [Rat.mkRat_eq_div], ?_⟩
  intro text h
  simp only [amountPatterns, List.forall_mem_cons] at h
  obtain ⟨h1, h2, h3, -⟩ := h
  simp [extract_amount, amountPatterns, goAmount, h1, h2, h3]

/-- Counterexample to C4 as stated: the ISO-like year-first shape
`"2023-12-15"` is matched by the date patterns but `extract_date` returns
`None` for it, not the date 2023-12-15 (the match converts through
`date(2015, 2023, 12)`, which raises and is skipped, and the year-first
branch has no conversion at all). -/
theorem cex_C4 : extract_date "2023-12-15" = none := by decide

/-- C4 (amended).  `extract_date` successfully parses only the numeric
slash/dash shape, as month/day/year with two-digit years normalized to the
2000s and subject to the `date` constructor's validation:
`extract_date("The call date is 12/15/2023") = 2023-12-15`, while the
month-name shape (`"December 15, 2023"`) and the ISO-like year-first shape
(`"2023-12-15"`) are matched but never successfully converted and yield
`None`; a text matching none of the shapes also yields `None`. -/
theorem claim_C4 :
    extract_date "The call date is 12/15/2023" = some ⟨2023, 12, 15⟩ ∧
    extract_date "December 15, 2023" = none ∧
    extract_date "2023-12-15" = none ∧
    (∀ text : String, (∀ p ∈ datePatterns, reSearch p text.data = none) →
      extract_date text = none) := by
  refine ⟨by decide, by decide, by decide, ?_⟩
  intro text h
  simp only [datePatterns, List.forall_mem_cons] at h
  obtain ⟨h1, h2, h3, -⟩ := h
  simp [extract_date, datePatterns, goDate, h1, h2, h3]

/-- Counterexample to C8 as stated: `extract_date` DOES reject
`"13/40/2023"`, falling back to `None`. -/
theorem cex_C8 : extract_date "13/40/2023" = none := by decide

/-- C8 (amended).  The numeric date pattern itself performs no range
validation — it matches `"13/40/2023"` in full — but the `date` constructor
does: `date(2023, 13, 40)` raises, the match is skipped, and with no other
pattern converting, `extract_date` returns `None` for `"13/40/2023"`. -/
theorem claim_C8 :
    reSearch datePatternNumeric "13/40/2023".data = some "13/40/2023".data ∧
    mkDate 2023 13 40 = none ∧
    extract_date "13/40/2023" = none := by
  exact ⟨by decide, by decide, by decide⟩

/-- Counterexample to C5 as stated: with no amount pattern matching, the
distribution amount falls back to `50000.00`, not the claimed `100000.00`
(the capital-call default). -/
theorem cex_C5 :
    extract_amount "" = none ∧
    (extract_distribution_fields "" ⟨2024, 1, 1⟩).distribution_amount = 50000 ∧
    ¬ (extract_distribution_fields "" ⟨2024, 1, 1⟩).distribution_amount = 100000 := by
  exact ⟨by decide, by decide, by decide⟩

/-- C5 (amended).  `extract_distribution_fields` shares
`extract_capital_call_fields`'s fallbacks for `fund_id` (`"FUND-001"`),
`lp_id` (`"LP-001"`) and the date (today) — the two routines agree on those
fields outright — but its amount default is `50000.00`, not the
capital-call default `100000.00`; `distribution_type` is `"CI"` exactly
when the capital-income/dividend pattern matches and `"ROC"` otherwise,
`currency` is `"USD"`, and the extraction confidence is the fixed `0.8`. -/
theorem claim_C5 (text : String) (today : Date) :
    (extract_distribution_fields text today).fund_id
        = (extract_capital_call_fields text today).fund_id ∧
    (extract_distribution_fields text today).lp_id
        = (extract_capital_call_fields text today).lp_id ∧
    (extract_distribution_fields text today).distribution_date
        = (extract_capital_call_fields text today).call_date ∧
    (extract_distribution_fields text today).distribution_amount
        = pyOrQ (extract_amount text) 50000 ∧
    (extract_amount text = none →
      (extract_distribution_fields text today).distribution_amount = 50000 ∧
      (extract_capital_call_fields text today).call_amount = 100000) ∧
    (extract_distribution_fields text today).distribution_type
        = (if (reSearch ciPattern text.data).isSome then "CI" else "ROC") ∧
    (extract_distribution_fields text today).currency = "USD" ∧
    (extract_distribution_fields text today).confidence = mkRat 8 10 := by
  refine ⟨rfl, rfl, rfl, rfl, ?_, rfl, rfl, rfl⟩
  intro h
  constructor
  · simp [extract_distribution_fields, pyOrQ, h]
  · simp [extract_capital_call_fields, pyOrQ, h]

/-- Counterexample to C7 as stated: the valuation routine's
`discount_rate` has no fallback default — with no discount-rate match its
value is `None`, an absent value in the output field map. -/
theorem cex_C7 :
    (extract_valuation_fields "" ⟨2024, 1, 1⟩).discount_rate = none := by decide

/-- C7 (amended).  For every text and every supported category, the
returned field map contains every declared field, with hard-coded defaults
substituted when a pattern fails to match (via Python `or`, which also
replaces falsy matched values) — with one exception: the valuation
`discount_rate` has no default and is `None` whenever the discount-rate
pattern does not match. -/
theorem claim_C7 (text : String) (today : Date) :
    (extract_capital_call_fields text today).fund_id
        = pyOrS (extract_fund_id text) "FUND-001" ∧
    (extract_capital_call_fields text today).call_date
        = pyOrD (extract_date text) today ∧
    (extract_capital_call_fields text today).lp_id
        = pyOrS (extract_lp_id text) "LP-001" ∧
    (extract_capital_call_fields text today).call_amount
        = pyOrQ (extract_amount text) 100000 ∧
    (extract_capital_call_fields text today).currency = "USD" ∧
    (extract_capital_call_fields text today).call_number
        = pyOrN (extract_call_number text) 1 ∧
    (extract_distribution_fields text today).fund_id
        = pyOrS (extract_fund_id text) "FUND-001" ∧
    (extract_distribution_fields text today).distribution_amount
        = pyOrQ (extract_amount text) 50000 ∧
    (extract_valuation_fields text today).valuation_date
        = pyOrD (extract_date text) today ∧
    (extract_valuation_fields text today).methodology = "DCF Analysis" ∧
    (extract_valuation_fields text today).multiples
        = [("ev_ebitda", "12.5x"), ("p_e", "15.0x")] ∧
    (extract_valuation_fields text today).final_valuation
        = pyOrQ (extract_amount text) 1000000 ∧
    (extract_valuation_fields text today).currency = "USD" ∧
    (reSearch discountRatePattern text.data = none →
      (extract_valuation_fields text today).discount_rate = none) := by
  refine ⟨rfl, rfl, rfl, rfl, rfl, rfl, rfl, rfl, rfl, rfl, rfl, rfl, rfl, ?_⟩
  intro h
  simp [extract_valuation_fields, extract_discount_rate, h]

/-! ## Claims about the orchestrator -/

/-- C2.  A run whose intake text is empty raises the source's
`Exception("No text could be extracted from PDF")`, which the single
top-level handler maps to: document status `failed` and exactly one
additional log entry (beyond the `start` entry) with stage `error`, status
`failed` and the exception's description; nothing is re-raised to the
caller, and the already-persisted `start` log entry and `processing`
status write remain in the trace (no rollback). -/
theorem claim_C2 (text : String) (today : Date) (ms : Nat) (h : text = "") :
    processDocument text today ms =
      [.logStep "start" "processing" "Starting document processing" none,
       .setStatus "processing" none,
       .setStatus "failed" none,
       .logStep "error" "failed"
         "Error during processing: No text could be extracted from PDF" none] ∧
    finalStatus (processDocument text today ms) = some "failed" ∧
    (logEntries (processDocument text today ms)).filter (fun e => e.1 == "error")
      = [("error", "failed")] := by
  subst h
  exact ⟨rfl, rfl, rfl⟩

/-- Witness for C2: the empty-intake run at a concrete date. -/
theorem claim_C2_witness :
    processDocument "" ⟨2024, 1, 1⟩ 0 =
      [.logStep "start" "processing" "Starting document processing" none,
       .setStatus "processing" none,
       .setStatus "failed" none,
       .logStep "error" "failed"
         "Error during processing: No text could be extracted from PDF" none] ∧
    finalStatus (processDocument "" ⟨2024, 1, 1⟩ 0) = some "failed" ∧
    (logEntries (processDocument "" ⟨2024, 1, 1⟩ 0)).filter (fun e => e.1 == "error")
      = [("error", "failed")] :=
  claim_C2 "" ⟨2024, 1, 1⟩ 0 rfl

/-- Counterexample to C3 as stated: the empty-intake run fails before the
classification stage, so its trace contains zero category/confidence
writes, not "exactly one". -/
theorem cex_C3 : clsWrites (processDocument "" ⟨2024, 1, 1⟩ 0) = [] := by decide

/-- C3 (amended).  In every run the status writes are monotonic along
`pending → processing → {completed, failed}` and nothing is written after a
terminal status; the category and confidence are written at most once —
exactly once, by the classification-stage status write, in every run with
nonempty intake text (a run with empty intake fails before classification
and writes them zero times) — and no later write of the run resets or
overwrites them (the subsequent `completed` write carries no
classification). -/
theorem claim_C3 (text : String) (today : Date) (ms : Nat) :
    statusesMonotone (statusWrites (processDocument text today ms)) = true ∧
    noWriteAfterTerminal (statusWrites (processDocument text today ms)) = true ∧
    statusOps (processDocument text today ms)
      = (if text = "" then
           [("processing", none), ("failed", none)]
         else
           [("processing", none), ("processing", some (classify text)),
            ("completed", none)]) ∧
    clsWrites (processDocument text today ms)
      = (if text = "" then [] else [classify text]) := by
  by_cases h : text = ""
  · subst h
    exact ⟨rfl, rfl, rfl, rfl⟩
  · have hs : statusWrites (processDocument text today ms)
        = ["processing", "processing", "completed"] := by
      simp only [processDocument, if_neg h]
      cases (classify text).1 <;>
        simp [statusWrites, recordOps, List.filterMap_append]
    have hso : statusOps (processDocument text today ms)
        = [("processing", none), ("processing", some (classify text)),
           ("completed", none)] := by
      simp only [processDocument, if_neg h]
      cases (classify text).1 <;>
        simp [statusOps, recordOps, List.filterMap_append]
    have hcw : clsWrites (processDocument text today ms) = [classify text] := by
      simp only [processDocument, if_neg h]
      cases (classify text).1 <;>
        simp [clsWrites, recordOps, List.filterMap_append]
    refine ⟨?_, ?_, ?_, ?_⟩
    · rw [hs]; decide
    · rw [hs]; decide
    · rw [hso, if_neg h]
    · rw [hcw, if_neg h]

/-- Witness for C3 at concrete inputs: the empty-intake run and a
nonempty-intake run. -/
theorem claim_C3_witness :
    statusesMonotone (statusWrites (processDocument "capital call capital call"
      ⟨2024, 1, 1⟩ 0)) = true ∧
    statusOps (processDocument "" ⟨2024, 1, 1⟩ 0)
      = [("processing", none), ("failed", none)] :=
  ⟨(claim_C3 "capital call capital call" ⟨2024, 1, 1⟩ 0).1,
   by
    have hc := (claim_C3 "" ⟨2024, 1, 1⟩ 0).2.2.1
    rw [if_pos rfl] at hc
    exact hc⟩

/-- Scenario A's input text, verbatim from the repository's own test
(`tests/test_document_processing.py::test_capital_call_extraction`). -/
def scenarioAText : String :=
  "\n        CAPITAL CALL NOTICE\n        Fund: ABC-III\n        LP: LP-001\n        Call Amount: $500,000\n        Call Date: 10/15/2023\n        Call Number: 5\n        "

set_option maxRecDepth 8000 in
/-- C6, evaluated at scenario A's text.  The run does complete with the
five claimed log stages and one capital-call record whose date, LP,
amount, call number and confidence are as claimed — but the extracted
`fund_id` is `"CAPI"`, not `"ABC-III"`: the loose third fund-id pattern
`([A-Z]{3,6}[\s\-]?[IVX]+)` matches `CAP` + `I` inside the word `CAPITAL`
before any pattern reaches `ABC-III`, contradicting the repository's own
test assertion (`fields['fund_id'] == 'ABC-III'`).  Also, the `start` log
entry is written with status `processing` (as the spec's own §4.3 step 1
says), so the five entries are not all `completed`. -/
theorem claim_C6 :
    finalStatus (processDocument scenarioAText ⟨2024, 1, 1⟩ 42) = some "completed" ∧
    logEntries (processDocument scenarioAText ⟨2024, 1, 1⟩ 42) =
      [("start", "processing"), ("text_extraction", "completed"),
       ("classification", "completed"), ("field_extraction", "completed"),
       ("complete", "completed")] ∧
    capitalCallRecords (processDocument scenarioAText ⟨2024, 1, 1⟩ 42) =
      [{ fund_id := "CAPI", call_date := ⟨2023, 10, 15⟩, lp_id := "LP-001",
         call_amount := 500000, currency := "USD", call_number := 5,
         confidence := mkRat 8 10 }] ∧
    extract_fund_id scenarioAText = some "CAPI" ∧
    "CAPI" ≠ "ABC-III" := by
  decide

end DocProc

